import Mathlib

/-!
Shallow embedding of the notification store abstraction of the
notification_summarizer repository: the tabular-file backend
(`DataLoader` in src/models/data_models.py) and the document-database
backend (`MongoDBService` in src/services/mongodb_service.py), together
with theorems settling the frozen claims about them.

Cell values of a pandas DataFrame and field values of a BSON document
are modelled by `PValue` (a missing value / NaN / null, an integer, or a
string), so that the numeric-versus-string identifier distinction that
several claims turn on is representable.  Machine-level aspects that no
claim touches (floating point cells, exotic BSON types) are not
modelled.  Timestamps (`datetime.utcnow()`) are modelled as an explicit
`now : Nat` argument.  All operations are total Lean functions: the
Python code catches its own exceptions at the backend boundary, and the
embedded operations correspondingly never fail.
-/

/-- A Python/pandas/BSON scalar value: `vNone` stands for Python `None`,
pandas `NaN` and BSON `null`; `vInt` for an integer; `vStr` for a string. -/
inductive PValue where
  | vNone : PValue
  | vInt : Int → PValue
  | vStr : String → PValue
deriving DecidableEq, Repr

open PValue

/-- Python `str(v)`.  `str(None)` is `"None"`; no claim exercises that
corner (every value reaching `str` in the embedded code paths is a
string or an integer). -/
def pyStr : PValue → String
  | vNone => "None"
  | vInt n => toString n
  | vStr s => s

/-- pandas `.astype(str)` applied to one cell; it differs from Python
`str` only on a missing value, which pandas renders as `"nan"`. -/
def pdAstypeStr : PValue → String
  | vNone => "nan"
  | vInt n => toString n
  | vStr s => s

/-- Python `str.lower()` applied per character (ASCII lowering; the
country names in play are ASCII).  Defined over the character list so
that it reduces in the kernel. -/
def pyLower (s : String) : String := ⟨s.data.map Char.toLower⟩

/-- Python `str.strip()`: drop ASCII whitespace from both ends.
Defined over the character list so that it reduces in the kernel. -/
def pyStrip (s : String) : String :=
  ⟨(((s.data.dropWhile Char.isWhitespace).reverse.dropWhile Char.isWhitespace).reverse)⟩

/-- Python truthiness of a value: `None`, `0` and `""` are falsy. -/
def pyTruthy : PValue → Bool
  | vNone => false
  | vInt n => decide (n ≠ 0)
  | vStr s => decide (s ≠ "")

/-- pandas elementwise equality used by `data['id'] == notification_id`:
missing values compare unequal to everything (including themselves), and
values of different kinds compare unequal. -/
def pdEq (a b : PValue) : Bool :=
  match a, b with
  | vNone, _ => false
  | _, vNone => false
  | a, b => decide (a = b)

/-- `fillna('')` applied to one cell. -/
def fillCell (v : PValue) : PValue :=
  match v with
  | vNone => vStr ""
  | v => v

/-- The `Notification` dataclass of src/models/data_models.py.  The
`summary` field is `none` for Python `None`; timestamps are abstract. -/
structure Notification where
  id : String
  date : String
  title : String
  url : String
  text : String
  summary : Option PValue := none
  created_at : Option Nat := none
  updated_at : Option Nat := none
deriving DecidableEq, Repr

/-- One dropdown option as produced by `get_dropdown_options` of either
backend: the dict `{'id': ..., 'title': ..., 'date': ..., 'has_summary': ...}`. -/
structure DropdownOption where
  id : String
  title : String
  date : String
  has_summary : Bool
deriving DecidableEq, Repr

/-! ## Tabular-file backend (`DataLoader`, src/models/data_models.py) -/

/-- One row of `IND_data.csv` as read by `pd.read_csv`: six columns,
renamed by `load_india_data` to index, id, date, title, url, text. -/
structure IndiaSrcRow where
  index : PValue
  id : PValue
  date : PValue
  title : PValue
  url : PValue
  text : PValue
deriving DecidableEq, Repr

/-- One row of `USA_data.csv` as read by `pd.read_csv`: five columns,
renamed by `load_usa_data` to index, date, title, url, text (no id
column in the source). -/
structure UsaSrcRow where
  index : PValue
  date : PValue
  title : PValue
  url : PValue
  text : PValue
deriving DecidableEq, Repr

/-- One row of a loaded, standardized DataFrame: the source columns plus
the `id` and `summary` columns added at load time. -/
structure Row where
  index : PValue
  id : PValue
  date : PValue
  title : PValue
  url : PValue
  text : PValue
  summary : PValue
deriving DecidableEq, Repr

/-- The `DataLoader` state: the contents of the two CSV source files,
the in-memory caches (`self.india_data`, `self.usa_data`; `none` means
not yet loaded), and the last full-file rewrite performed by
`save_summary` (`none` means the file still holds the original source).
Load failure (a missing file) is not modelled: the claims under
verification all concern present sources. -/
structure DataLoader where
  indiaSrc : List IndiaSrcRow
  usaSrc : List UsaSrcRow
  indiaData : Option (List Row) := none
  usaData : Option (List Row) := none
  indiaFile : Option (List Row) := none
  usaFile : Option (List Row) := none
deriving DecidableEq, Repr

/-- `load_india_data`: on first access, standardize the columns, add a
`summary` column (`None`), then `fillna('')` over the whole frame —
so every missing cell, the fresh summary column included, becomes the
empty string.  The result is cached. -/
def DataLoader.load_india_data (dl : DataLoader) : DataLoader × List Row :=
  match dl.indiaData with
  | some d => (dl, d)
  | none =>
      let d := dl.indiaSrc.map fun r =>
        { index := fillCell r.index, id := fillCell r.id, date := fillCell r.date,
          title := fillCell r.title, url := fillCell r.url, text := fillCell r.text,
          summary := vStr "" }
      ({ dl with indiaData := some d }, d)

/-- `load_usa_data`: standardize the columns, synthesize the `id` column
as `df['index'].astype(str)` (before `fillna`), add a `summary` column
(`None`), then `fillna('')`.  The result is cached. -/
def DataLoader.load_usa_data (dl : DataLoader) : DataLoader × List Row :=
  match dl.usaData with
  | some d => (dl, d)
  | none =>
      let d := dl.usaSrc.map fun r =>
        { index := fillCell r.index, id := vStr (pdAstypeStr r.index),
          date := fillCell r.date, title := fillCell r.title,
          url := fillCell r.url, text := fillCell r.text,
          summary := vStr "" }
      ({ dl with usaData := some d }, d)

/-- `data['id'] = data['id'].astype(str)`: this assignment in
`get_notification_by_id` mutates the cached DataFrame in place. -/
def astypeStrId (data : List Row) : List Row :=
  data.map fun r => { r with id := vStr (pyStr r.id) }

/-- The row filter `data[data['id'] == str(notification_id)]` followed by
`.iloc[0]`: the first row (post-`astype`) whose id cell equals the string
form of the queried id. -/
def lookupRow (data : List Row) (nid : PValue) : Option Row :=
  data.find? fun r => pdEq r.id (vStr (pyStr nid))

/-- Construction of the `Notification` returned by
`DataLoader.get_notification_by_id` from the selected row. -/
def rowToNotification (r : Row) : Notification :=
  { id := pyStr r.id, date := pyStr r.date, title := pyStr r.title,
    url := pyStr r.url, text := pyStr r.text,
    summary := if r.summary = vNone then none else some r.summary }

/-- `DataLoader.get_notification_by_id`.  The queried id is a `PValue`
(Python is untyped here); both the stored ids and the query are
normalized to strings before comparison.  Unknown countries return
`None` without touching the state. -/
def DataLoader.get_notification_by_id (dl : DataLoader) (country : String)
    (nid : PValue) : DataLoader × Option Notification :=
  if pyLower country = "india" then
    ({ (dl.load_india_data).1 with indiaData := some (astypeStrId (dl.load_india_data).2) },
     (lookupRow (astypeStrId (dl.load_india_data).2) nid).map rowToNotification)
  else if pyLower country = "usa" then
    ({ (dl.load_usa_data).1 with usaData := some (astypeStrId (dl.load_usa_data).2) },
     (lookupRow (astypeStrId (dl.load_usa_data).2) nid).map rowToNotification)
  else
    (dl, none)

/-- The row update `data.loc[data['id'] == notification_id, 'summary'] = summary`:
note the comparison here is the raw pandas equality, with no string
normalization of either side. -/
def updRow (nid : PValue) (s : String) (r : Row) : Row :=
  if pdEq r.id nid then { r with summary := vStr s } else r

/-- `DataLoader.save_summary`: loads the partition (from cache if warm),
sets the summary cell of every raw-matching row in place, and rewrites
the whole partition file with `to_csv`.  The Python function has no
return statement, so its value is `None`, modelled as `none` (a real
boolean would be `some b`).  Unknown countries fall through with no
effect. -/
def DataLoader.save_summary (dl : DataLoader) (country : String)
    (nid : PValue) (s : String) : DataLoader × Option Bool :=
  if pyLower country = "india" then
    ({ (dl.load_india_data).1 with
        indiaData := some ((dl.load_india_data).2.map (updRow nid s)),
        indiaFile := some ((dl.load_india_data).2.map (updRow nid s)) }, none)
  else if pyLower country = "usa" then
    ({ (dl.load_usa_data).1 with
        usaData := some ((dl.load_usa_data).2.map (updRow nid s)),
        usaFile := some ((dl.load_usa_data).2.map (updRow nid s)) }, none)
  else
    (dl, none)

/-- Construction of one dropdown option from a row in
`DataLoader.get_dropdown_options`: `summary` is `row['summary']` if
non-missing else `None`, and
`has_summary = summary is not None and str(summary).strip() != ''`. -/
def rowToOption (r : Row) : DropdownOption :=
  { id := pyStr r.id, title := pyStrip (pyStr r.title), date := pyStrip (pyStr r.date),
    has_summary := decide (r.summary ≠ vNone) && decide (pyStrip (pyStr r.summary) ≠ "") }

/-- `DataLoader.get_dropdown_options`: loads the partition, takes the
first 100 rows (`data.head(100)`), and maps each to an option dict.
Unknown countries yield the empty list. -/
def DataLoader.get_dropdown_options (dl : DataLoader) (country : String) :
    DataLoader × List DropdownOption :=
  if pyLower country = "india" then
    ((dl.load_india_data).1, ((dl.load_india_data).2.take 100).map rowToOption)
  else if pyLower country = "usa" then
    ((dl.load_usa_data).1, ((dl.load_usa_data).2.take 100).map rowToOption)
  else
    (dl, [])

/-! ## Document-database backend (`MongoDBService`, src/services/mongodb_service.py) -/

/-- One stored document.  `summary = none` means the field is absent,
`some vNone` means it is present with value null; `doc.get('summary')`
returns Python `None` in both cases while the `$exists` clause of the
stats filter distinguishes them. -/
structure MDoc where
  id : PValue
  date : PValue
  title : PValue
  url : PValue
  text : PValue
  summary : Option PValue := none
  created_at : Option Nat := none
  updated_at : Option Nat := none
deriving DecidableEq, Repr

/-- Python `doc.get(field)`: the stored value, with an absent field
surfacing as `None` (`vNone`). -/
def pyGet (v : Option PValue) : PValue := v.getD vNone

/-- The `MongoDBService` state: the connection status (the result of the
`ping` probe in `is_connected`) and the two collections.  The collections
hold documents in natural storage order. -/
structure MongoState where
  connected : Bool
  india : List MDoc := []
  usa : List MDoc := []
deriving DecidableEq, Repr

/-- `collection_name = f"{country.lower()}_notifications"`. -/
def mongoCollName (country : String) : String :=
  pyLower country ++ "_notifications"

/-- `self.db[collection_name]`: reading any other collection name yields
an (implicitly empty) collection. -/
def MongoState.coll (st : MongoState) (name : String) : List MDoc :=
  if name = "india_notifications" then st.india
  else if name = "usa_notifications" then st.usa
  else []

/-- Writing a collection back; `update_one` never inserts, so writing an
unchanged empty list to an unknown collection leaves the state as is. -/
def MongoState.setColl (st : MongoState) (name : String) (docs : List MDoc) :
    MongoState :=
  if name = "india_notifications" then { st with india := docs }
  else if name = "usa_notifications" then { st with usa := docs }
  else st

/-- Construction of the `Notification` returned by
`MongoDBService.get_notification_by_id` from the found document:
`summary=document.get('summary')` surfaces an absent or null field as
Python `None`. -/
def docToNotification (d : MDoc) : Notification :=
  { id := pyStr d.id, date := pyStr d.date, title := pyStr d.title,
    url := pyStr d.url, text := pyStr d.text,
    summary := if pyGet d.summary = vNone then none else some (pyGet d.summary),
    created_at := d.created_at, updated_at := d.updated_at }

/-- `MongoDBService.get_notification_by_id`: a raw exact-match
`find_one({"id": notification_id})` — no normalization of either side —
followed by the `Notification` construction.  Disconnected: `None`. -/
def MongoState.get_notification_by_id (st : MongoState) (country : String)
    (nid : PValue) : Option Notification :=
  if st.connected then
    match (st.coll (mongoCollName country)).find? (fun d => decide (d.id = nid)) with
    | some d => some (docToNotification d)
    | none => none
  else none

/-- Construction of one dropdown option from a document:
`has_summary = bool(doc.get('summary') and str(doc['summary']).strip())`. -/
def docToOption (d : MDoc) : DropdownOption :=
  { id := pyStr d.id, title := pyStr d.title, date := pyStr d.date,
    has_summary := pyTruthy (pyGet d.summary)
      && decide (pyStrip (pyStr (pyGet d.summary)) ≠ "") }

/-- `MongoDBService.get_dropdown_options`: a projected find over the
collection with `.limit(limit)` (the Python default is 1000; a limit of
0 means no cap in MongoDB).  Disconnected: the empty list. -/
def MongoState.get_dropdown_options (st : MongoState) (country : String)
    (limit : Nat) : List DropdownOption :=
  if st.connected then
    (if limit = 0 then st.coll (mongoCollName country)
     else (st.coll (mongoCollName country)).take limit).map docToOption
  else []

/-- `collection.update_one({"id": nid}, {"$set": {"summary": s, "updated_at": now}})`:
updates the first exact-id match; the returned flag is
`result.modified_count > 0`, i.e. whether the stored document actually
changed under the `$set`. -/
def mongoUpdateDocs (docs : List MDoc) (nid : PValue) (s : String) (now : Nat) :
    List MDoc × Bool :=
  match docs with
  | [] => ([], false)
  | d :: rest =>
      if d.id = nid then
        let d2 := { d with summary := some (vStr s), updated_at := some now }
        (d2 :: rest, decide (d2 ≠ d))
      else
        let p := mongoUpdateDocs rest nid s now
        (d :: p.1, p.2)

/-- `MongoDBService.save_summary`: the targeted `$set` update above,
stamping `updated_at` with the current time `now`.  Disconnected:
`(unchanged, false)`. -/
def MongoState.save_summary (st : MongoState) (country : String) (nid : PValue)
    (s : String) (now : Nat) : MongoState × Bool :=
  if st.connected then
    (st.setColl (mongoCollName country)
       (mongoUpdateDocs (st.coll (mongoCollName country)) nid s now).1,
     (mongoUpdateDocs (st.coll (mongoCollName country)) nid s now).2)
  else (st, false)

/-- The stats record returned by `get_collection_stats`. -/
structure CollStats where
  total_notifications : Nat
  with_summaries : Nat
  without_summaries : Nat
deriving DecidableEq, Repr

/-- The filter of `count_documents` for "with summary".  The source
passes the Python dict literal
`{"summary": {"$exists": True, "$ne": None, "$ne": ""}}`; a Python dict
literal keeps only the last binding of a duplicated key, so the filter
actually sent is `$exists: True` together with `$ne: ""` — the
`$ne: None` clause is discarded before the query is issued. -/
def statsHasSummaryFilter (d : MDoc) : Bool :=
  d.summary.isSome && decide (pyGet d.summary ≠ vStr "")

/-- `MongoDBService.get_collection_stats`.  When disconnected the Python
returns the empty dict `{}` (no keys at all), modelled as `none`. -/
def MongoState.get_collection_stats (st : MongoState) (country : String) :
    Option CollStats :=
  if st.connected then
    some { total_notifications := (st.coll (mongoCollName country)).length,
           with_summaries :=
             ((st.coll (mongoCollName country)).filter statsHasSummaryFilter).length,
           without_summaries :=
             (st.coll (mongoCollName country)).length
               - ((st.coll (mongoCollName country)).filter statsHasSummaryFilter).length }
  else none

/-! ## Helper lemmas -/

lemma pdEq_true {a b : PValue} : pdEq a b = true ↔ a = b ∧ a ≠ vNone := by
  cases a <;> cases b <;> simp [pdEq]

lemma updRow_id (nid : PValue) (s : String) (r : Row) : (updRow nid s r).id = r.id := by
  unfold updRow; split <;> rfl

lemma updRow_summary_of_match (nid : PValue) (s : String) (r : Row)
    (h : pdEq r.id nid = true) : (updRow nid s r).summary = vStr s := by
  simp [updRow, h]

lemma updRow_of_no_match (nid : PValue) (s : String) (r : Row)
    (h : pdEq r.id nid = false) : updRow nid s r = r := by
  simp [updRow, h]

lemma setColl_connected (st : MongoState) (name : String) (docs : List MDoc) :
    (st.setColl name docs).connected = st.connected := by
  unfold MongoState.setColl; split
  · rfl
  · split <;> rfl

lemma setColl_coll_self (st : MongoState) (name : String) :
    st.setColl name (st.coll name) = st := by
  unfold MongoState.setColl MongoState.coll; split
  · rfl
  · split <;> rfl

lemma coll_setColl_self (st : MongoState) (name : String) (docs : List MDoc)
    (h : name = "india_notifications" ∨ name = "usa_notifications") :
    (st.setColl name docs).coll name = docs := by
  unfold MongoState.setColl MongoState.coll
  rcases h with h | h <;> subst h <;> simp

lemma coll_of_unknown (st : MongoState) (name : String)
    (h1 : name ≠ "india_notifications") (h2 : name ≠ "usa_notifications") :
    st.coll name = [] := by
  unfold MongoState.coll
  simp [h1, h2]

lemma mongoUpdateDocs_no_match (docs : List MDoc) (nid : PValue) (s : String)
    (now : Nat) (h : ∀ d ∈ docs, d.id ≠ nid) :
    mongoUpdateDocs docs nid s now = (docs, false) := by
  induction docs with
  | nil => rfl
  | cons a rest ih =>
      have ha : a.id ≠ nid := h a (List.mem_cons_self a rest)
      have hrest := ih fun d hd => h d (List.mem_cons_of_mem a hd)
      simp [mongoUpdateDocs, ha, hrest]

lemma mongoUpdateDocs_snd_of_find (docs : List MDoc) (nid : PValue) (s : String)
    (now : Nat) (d : MDoc)
    (h : docs.find? (fun x => decide (x.id = nid)) = some d) :
    (mongoUpdateDocs docs nid s now).2
      = decide (d.summary ≠ some (vStr s) ∨ d.updated_at ≠ some now) := by
  induction docs with
  | nil => simp at h
  | cons a rest ih =>
      by_cases ha : a.id = nid
      · have hd : d = a := by
          rw [List.find?_cons_of_pos _ (by simpa using ha)] at h
          exact (Option.some.injEq _ _ ▸ h).symm
        subst hd
        obtain ⟨i, dt, ti, u, tx, sm, ca, ua⟩ := d
        simp only [mongoUpdateDocs, if_pos ha]
        by_cases hs : sm = some (vStr s) <;> by_cases hu : ua = some now <;>
          simp [hs, hu, MDoc.mk.injEq, eq_comm]
      · rw [List.find?_cons_of_neg _ (by simpa using ha)] at h
        simpa [mongoUpdateDocs, ha] using ih h

lemma mongoUpdateDocs_fst_of_find (docs : List MDoc) (nid : PValue) (s : String)
    (now : Nat) (d : MDoc)
    (h : docs.find? (fun x => decide (x.id = nid)) = some d) :
    (mongoUpdateDocs docs nid s now).1.find? (fun x => decide (x.id = nid))
      = some { d with summary := some (vStr s), updated_at := some now } := by
  induction docs with
  | nil => simp at h
  | cons a rest ih =>
      by_cases ha : a.id = nid
      · have hd : d = a := by
          rw [List.find?_cons_of_pos _ (by simpa using ha)] at h
          exact (Option.some.injEq _ _ ▸ h).symm
        subst hd
        simp only [mongoUpdateDocs, if_pos ha]
        exact List.find?_cons_of_pos _ (by simpa using ha)
      · rw [List.find?_cons_of_neg _ (by simpa using ha)] at h
        simp only [mongoUpdateDocs, if_neg ha]
        rw [List.find?_cons_of_neg _ (by simpa using ha)]
        exact ih h

/-! ## Claim C1 -/

/-- A connected document store holding one record whose summary is
already the text `"s"` and whose stored `updated_at` is the instant 0. -/
def c1doc : MDoc :=
  { id := vStr "1", date := vStr "d", title := vStr "t",
    url := vStr "u", text := vStr "x",
    summary := some (vStr "s"), updated_at := some 0 }

def c1st : MongoState := { connected := true, india := [c1doc] }

/-- A variant of the same store whose stored `updated_at` is 5. -/
def c1docB : MDoc :=
  { id := vStr "1", date := vStr "d", title := vStr "t",
    url := vStr "u", text := vStr "x",
    summary := some (vStr "s"), updated_at := some 5 }

def c1stB : MongoState := { connected := true, india := [c1docB] }

/-- C1, counterexample.  The claim says that rewriting an
already-identical summary is reported as a no-op failure (`false`).  It
is not: `save_summary` also stamps `updated_at` with the current time,
so as soon as the fresh timestamp (here 1) differs from the stored one
(here 0) the document is modified and the call returns `true`, even
though the summary text is unchanged. -/
theorem c1_counterexample :
    (c1st.save_summary "India" (vStr "1") "s" 1).2 = true := by decide

/-- C1, amended.  For the document backend, when a record with the given
id exists (as the first raw match of the collection) and its summary
already equals the text being written, `save_summary` returns `false`
if and only if the stored `updated_at` also equals the timestamp being
stamped; otherwise the `$set` still changes `updated_at` and the call
reports success. -/
theorem c1_amended (st : MongoState) (country : String) (nid : PValue)
    (s : String) (now : Nat) (d : MDoc)
    (h1 : st.connected = true)
    (h2 : (st.coll (mongoCollName country)).find? (fun x => decide (x.id = nid)) = some d)
    (h3 : d.summary = some (vStr s)) :
    (st.save_summary country nid s now).2 = false ↔ d.updated_at = some now := by
  have hsnd := mongoUpdateDocs_snd_of_find (st.coll (mongoCollName country)) nid s now d h2
  simp only [MongoState.save_summary, h1, if_true, hsnd, h3]
  by_cases hu : d.updated_at = some now <;> simp [hu]

/-- C1, witness for the amended theorem: with the stored timestamp equal
to the one being stamped (both 5) and an identical summary, the call
does return `false`. -/
theorem c1_amended_witness :
    (c1stB.save_summary "India" (vStr "1") "s" 5).2 = false :=
  (c1_amended c1stB "India" (vStr "1") "s" 5 c1docB rfl (by decide) rfl).mpr rfl

/-! ## Claim C3 -/

/-- A disconnected document store that nevertheless holds data, to show
the disconnected results do not depend on the collections. -/
def c3st : MongoState :=
  { connected := false,
    india := [{ id := vStr "1", date := vStr "d", title := vStr "t",
                url := vStr "u", text := vStr "x" }] }

/-- C3, counterexample.  In the disconnected state `get_collection_stats`
returns the empty dict `{}` (modelled `none`), not the record
`{total: 0, withSummary: 0, withoutSummary: 0}` the claim asserts. -/
theorem c3_counterexample :
    MongoState.get_collection_stats c3st "India"
      ≠ some { total_notifications := 0, with_summaries := 0, without_summaries := 0 } := by
  decide

/-- C3, amended.  For the document backend in the disconnected state,
for every country, `get_dropdown_options` returns the empty sequence
and `get_collection_stats` returns the empty dict (`none`) — not a
zero-valued stats record — and neither operation raises (both are total
here, as in the code both guard on `is_connected` before touching the
database). -/
theorem c3_amended (st : MongoState) (country : String) (limit : Nat)
    (h : st.connected = false) :
    st.get_dropdown_options country limit = []
      ∧ st.get_collection_stats country = none := by
  unfold MongoState.get_dropdown_options MongoState.get_collection_stats
  simp [h]

/-- C3, witness: the amended theorem applied to the concrete
disconnected store. -/
theorem c3_amended_witness :
    MongoState.get_dropdown_options c3st "India" 1000 = []
      ∧ MongoState.get_collection_stats c3st "India" = none :=
  c3_amended c3st "India" 1000 rfl

/-! ## Claim C4 -/

/-- A file-backend state whose India partition holds one row with id
`"a"`, so that the id `"missing-id"` matches nothing. -/
def c4dl : DataLoader :=
  { indiaSrc := [{ index := vInt 0, id := vStr "a", date := vStr "d",
                   title := vStr "t", url := vStr "u", text := vStr "x" }],
    usaSrc := [] }

/-- C4, counterexample.  For the file backend the claim's "returns
false" is wrong: the Python `DataLoader.save_summary` has no return
statement, so the call evaluates to `None` (here `none`), not to the
boolean `False` (`some false`). -/
theorem c4_counterexample :
    (c4dl.save_summary "india" (vStr "missing-id") "text").2 = none
      ∧ (c4dl.save_summary "india" (vStr "missing-id") "text").2 ≠ some false := by
  decide

/-- C4, amended.  Saving a summary for an id that matches no record:
the document backend returns `false`, inserts nothing, and leaves the
state exactly unchanged; the file backend returns no success boolean at
all (Python `None`) and leaves the partition rows unchanged — it merely
rewrites the cache and partition file with the identical row list.
Neither backend raises (both embedded operations are total). -/
theorem c4_amended :
    (∀ (st : MongoState) (country : String) (nid : PValue) (s : String) (now : Nat),
        st.connected = true →
        (∀ d ∈ st.coll (mongoCollName country), d.id ≠ nid) →
        st.save_summary country nid s now = (st, false))
    ∧ (∀ (dl : DataLoader) (country : String) (nid : PValue) (s : String),
        pyLower country = "india" →
        (∀ r ∈ (dl.load_india_data).2, pdEq r.id nid = false) →
        (dl.save_summary country nid s).2 = none
          ∧ ((dl.save_summary country nid s).1).indiaData = some (dl.load_india_data).2
          ∧ ((dl.save_summary country nid s).1).indiaFile = some (dl.load_india_data).2)
    ∧ (∀ (dl : DataLoader) (country : String) (nid : PValue) (s : String),
        pyLower country = "usa" →
        (∀ r ∈ (dl.load_usa_data).2, pdEq r.id nid = false) →
        (dl.save_summary country nid s).2 = none
          ∧ ((dl.save_summary country nid s).1).usaData = some (dl.load_usa_data).2
          ∧ ((dl.save_summary country nid s).1).usaFile = some (dl.load_usa_data).2) := by
  refine ⟨?_, ?_, ?_⟩
  · intro st country nid s now h1 h2
    have hupd := mongoUpdateDocs_no_match (st.coll (mongoCollName country)) nid s now h2
    simp [MongoState.save_summary, h1, hupd, setColl_coll_self]
  · intro dl country nid s hc hall
    have hmap : (dl.load_india_data).2.map (updRow nid s) = (dl.load_india_data).2 := by
      conv_rhs => rw [← List.map_id (dl.load_india_data).2]
      exact List.map_congr_left fun r hr => updRow_of_no_match nid s r (hall r hr)
    have hne : ¬ pyLower country = "usa" := by rw [hc]; decide
    simp [DataLoader.save_summary, hc, hne, hmap]
  · intro dl country nid s hc hall
    have hmap : (dl.load_usa_data).2.map (updRow nid s) = (dl.load_usa_data).2 := by
      conv_rhs => rw [← List.map_id (dl.load_usa_data).2]
      exact List.map_congr_left fun r hr => updRow_of_no_match nid s r (hall r hr)
    have hne : ¬ pyLower country = "india" := by rw [hc]; decide
    simp [DataLoader.save_summary, hc, hne, hmap]

/-- A connected document store whose only record has id `"a"`. -/
def c4st : MongoState :=
  { connected := true,
    india := [{ id := vStr "a", date := vStr "d", title := vStr "t",
                url := vStr "u", text := vStr "x" }] }

/-- C4, witness: each part of the amended theorem applied at a concrete
missing id. -/
theorem c4_amended_witness :
    c4st.save_summary "india" (vStr "missing-id") "text" 7 = (c4st, false)
      ∧ (c4dl.save_summary "india" (vStr "missing-id") "text").2 = none
      ∧ ((c4dl.save_summary "india" (vStr "missing-id") "text").1).indiaData
          = some (c4dl.load_india_data).2
      ∧ (c4dl.save_summary "usa" (vStr "missing-id") "text").2 = none :=
  ⟨c4_amended.1 c4st "india" (vStr "missing-id") "text" 7 rfl (by decide),
   (c4_amended.2.1 c4dl "india" (vStr "missing-id") "text" rfl (by decide)).1,
   (c4_amended.2.1 c4dl "india" (vStr "missing-id") "text" rfl (by decide)).2.1,
   (c4_amended.2.2 c4dl "usa" (vStr "missing-id") "text" rfl (by decide)).1⟩

/-! ## Claim C10 -/

/-- C10.  For the file backend, a country that is neither India nor USA
(case-insensitively) gets the absent / empty / no-op result from all
three operations, each returning the state untouched, and none of them
raises (all are total). -/
theorem c10_unknown_country (dl : DataLoader) (country : String)
    (nid : PValue) (s : String)
    (h1 : pyLower country ≠ "india") (h2 : pyLower country ≠ "usa") :
    dl.get_notification_by_id country nid = (dl, none)
      ∧ dl.get_dropdown_options country = (dl, [])
      ∧ dl.save_summary country nid s = (dl, none) := by
  unfold DataLoader.get_notification_by_id DataLoader.get_dropdown_options
    DataLoader.save_summary
  simp [h1, h2]

/-- C10, witness: the unknown country `"France"` on a concrete state. -/
theorem c10_witness :
    c4dl.get_notification_by_id "France" (vStr "1") = (c4dl, none)
      ∧ c4dl.get_dropdown_options "France" = (c4dl, [])
      ∧ c4dl.save_summary "France" (vStr "1") "text" = (c4dl, none) :=
  c10_unknown_country c4dl "France" (vStr "1") "text" (by decide) (by decide)

/-! ## Claim C6 -/

/-- C6.  Option-count caps: the file backend emits exactly
`min(n, 100)` options (`data.head(100)`), in on-disk row order (the
option ids are the first 100 row ids in order); the document backend at
its default limit 1000 emits exactly `min(n, 1000)` options. -/
theorem c6_limits :
    (∀ (dl : DataLoader) (country : String), pyLower country = "india" →
        ((dl.get_dropdown_options country).2).length
            = min (dl.load_india_data).2.length 100
          ∧ ((dl.get_dropdown_options country).2).map DropdownOption.id
              = ((dl.load_india_data).2.map fun r => pyStr r.id).take 100)
    ∧ (∀ (dl : DataLoader) (country : String), pyLower country = "usa" →
        ((dl.get_dropdown_options country).2).length
            = min (dl.load_usa_data).2.length 100
          ∧ ((dl.get_dropdown_options country).2).map DropdownOption.id
              = ((dl.load_usa_data).2.map fun r => pyStr r.id).take 100)
    ∧ (∀ (st : MongoState) (country : String), st.connected = true →
        (st.get_dropdown_options country 1000).length
          = min (st.coll (mongoCollName country)).length 1000) := by
  refine ⟨?_, ?_, ?_⟩
  · intro dl country hc
    have hne : ¬ pyLower country = "usa" := by rw [hc]; decide
    refine ⟨?_, ?_⟩
    · simp [DataLoader.get_dropdown_options, hc, hne, Nat.min_comm]
    · simp only [DataLoader.get_dropdown_options, hc, hne, if_true, if_false,
        List.map_map, ← List.map_take]
      exact List.map_congr_left fun r hr => rfl
  · intro dl country hc
    have hne : ¬ ("usa" : String) = "india" := by decide
    refine ⟨?_, ?_⟩
    · simp [DataLoader.get_dropdown_options, hc, hne, Nat.min_comm]
    · simp only [DataLoader.get_dropdown_options, hc, hne, if_true, if_false,
        List.map_map, ← List.map_take]
      exact List.map_congr_left fun r hr => rfl
  · intro st country h
    simp [MongoState.get_dropdown_options, h, Nat.min_comm]

/-- A file-backend state with two India rows (n = 2 ≤ 100) and a
connected document store with one record, to exercise the caps. -/
def c6dl : DataLoader :=
  { indiaSrc := [{ index := vInt 0, id := vStr "a", date := vStr "d1",
                   title := vStr "t1", url := vStr "u1", text := vStr "x1" },
                 { index := vInt 1, id := vStr "b", date := vStr "d2",
                   title := vStr "t2", url := vStr "u2", text := vStr "x2" }],
    usaSrc := [{ index := vInt 0, date := vStr "d", title := vStr "t",
                 url := vStr "u", text := vStr "x" }] }

def c6st : MongoState :=
  { connected := true,
    usa := [{ id := vStr "1", date := vStr "d", title := vStr "t",
              url := vStr "u", text := vStr "x" }] }

/-- C6, witness: the caps evaluated on the concrete states. -/
theorem c6_witness :
    ((c6dl.get_dropdown_options "India").2).length = 2
      ∧ ((c6dl.get_dropdown_options "India").2).map DropdownOption.id = ["a", "b"]
      ∧ ((c6dl.get_dropdown_options "USA").2).length = 1
      ∧ (c6st.get_dropdown_options "usa" 1000).length = 1 := by
  refine ⟨?_, ?_, ?_, ?_⟩
  · rw [(c6_limits.1 c6dl "India" (by decide)).1]; decide
  · rw [(c6_limits.1 c6dl "India" (by decide)).2]; decide
  · rw [(c6_limits.2.1 c6dl "USA" (by decide)).1]; decide
  · rw [c6_limits.2.2 c6st "usa" rfl]; decide

/-! ## Claim C7 -/

/-- A three-row USA source whose `index` column holds 7, 8, 9 rather
than the conventional 0, 1, 2. -/
def c7dl : DataLoader :=
  { indiaSrc := [],
    usaSrc := [{ index := vInt 7, date := vStr "d1", title := vStr "t1",
                 url := vStr "u1", text := vStr "x1" },
               { index := vInt 8, date := vStr "d2", title := vStr "t2",
                 url := vStr "u2", text := vStr "x2" },
               { index := vInt 9, date := vStr "d3", title := vStr "t3",
                 url := vStr "u3", text := vStr "x3" }] }

/-- The same source with the conventional index column 0, 1, 2. -/
def c7dlB : DataLoader :=
  { indiaSrc := [],
    usaSrc := [{ index := vInt 0, date := vStr "d1", title := vStr "t1",
                 url := vStr "u1", text := vStr "x1" },
               { index := vInt 1, date := vStr "d2", title := vStr "t2",
                 url := vStr "u2", text := vStr "x2" },
               { index := vInt 2, date := vStr "d3", title := vStr "t3",
                 url := vStr "u3", text := vStr "x3" }] }

/-- C7, counterexample.  The synthesized USA id is
`df['index'].astype(str)` — the string form of the `index` column value
of the row, not of the row's position.  For a three-row source whose
index column holds 7, 8, 9, the listed ids are "7", "8", "9", not the
"0", "1", "2" the claim asserts. -/
theorem c7_counterexample :
    ((c7dl.get_dropdown_options "USA").2).map DropdownOption.id ≠ ["0", "1", "2"] := by
  decide

/-- C7, amended.  For a fresh (uncached) USA partition, the listed ids
are the string forms of the source rows' `index`-column values, in
source row order (capped at 100); in particular a source whose index
column holds 0, 1, 2 yields ids "0", "1", "2". -/
theorem c7_amended (dl : DataLoader) (h : dl.usaData = none) :
    ((dl.get_dropdown_options "USA").2).map DropdownOption.id
      = (dl.usaSrc.map fun r => pdAstypeStr r.index).take 100 := by
  have hus : pyLower "USA" = "usa" := by decide
  have hni : ¬ ("usa" : String) = "india" := by decide
  simp only [DataLoader.get_dropdown_options, hus, hni, if_true, if_false,
    DataLoader.load_usa_data, h, List.map_map, ← List.map_take]
  exact List.map_congr_left fun r hr => rfl

/-- C7, witness: on the conventional three-row source the ids are
exactly "0", "1", "2". -/
theorem c7_amended_witness :
    ((c7dlB.get_dropdown_options "USA").2).map DropdownOption.id = ["0", "1", "2"] := by
  rw [c7_amended c7dlB rfl]; decide

/-! ## Claim C2 -/

/-- A connected document store holding one record whose summary is the
whitespace-only string `" "`. -/
def c2doc : MDoc :=
  { id := vStr "1", date := vStr "d", title := vStr "t",
    url := vStr "u", text := vStr "x", summary := some (vStr " ") }

def c2st : MongoState := { connected := true, india := [c2doc] }

/-- A warm file-backend cache whose single row carries the
whitespace-only summary `" "` (the state reached after saving `" "`). -/
def c2row : Row :=
  { index := vInt 0, id := vStr "1", date := vStr "d", title := vStr "t",
    url := vStr "u", text := vStr "x", summary := vStr " " }

def c2dl : DataLoader :=
  { indiaSrc := [], usaSrc := [],
    indiaData := some [c2row], usaData := some [c2row] }

/-- C2, counterexample.  A record whose summary is the whitespace-only
string `" "` is counted by the document backend's `get_collection_stats`
as *with* summary (the count filter is `$exists` together with
`$ne: ""`, with no trimming), so the stats for a one-record store are
{total 1, with 1, without 0}, not the {total 1, with 0, without 1} the
claim requires. -/
theorem c2_counterexample :
    MongoState.get_collection_stats c2st "India"
        ≠ some { total_notifications := 1, with_summaries := 0, without_summaries := 1 }
      ∧ MongoState.get_collection_stats c2st "India"
          = some { total_notifications := 1, with_summaries := 1, without_summaries := 0 } := by
  decide

/-- Amended classification of one stored record for
`get_collection_stats`: it counts as "with summary" iff its summary
field exists and is not exactly the empty string — so records with a
null or whitespace-only summary are counted as "with summary". -/
def specStatsWithSummary (d : MDoc) : Bool :=
  match d.summary with
  | none => false
  | some v => decide (v ≠ vStr "")

/-- C2, amended.  Option listing marks `hasSummary` false for absent,
null, empty and whitespace-only summaries in both backends (for a
string-or-missing summary value, `hasSummary` is true iff the summary
is a string that is non-empty after trimming).  The document backend's
`get_collection_stats`, however, counts a record as "with summary" iff
the summary field exists and differs from the empty string — null and
whitespace-only summaries are counted as *with* summary there — with
`total = with + without`. -/
theorem c2_amended :
    (∀ (st : MongoState) (country : String), st.connected = true →
        ∃ stt, st.get_collection_stats country = some stt
          ∧ stt.total_notifications = (st.coll (mongoCollName country)).length
          ∧ stt.with_summaries
              = (st.coll (mongoCollName country)).countP specStatsWithSummary
          ∧ stt.with_summaries + stt.without_summaries = stt.total_notifications)
    ∧ (∀ (st : MongoState) (country : String) (i : Nat) (d : MDoc) (o : DropdownOption),
        st.connected = true →
        ((st.coll (mongoCollName country)).take 1000)[i]? = some d →
        (st.get_dropdown_options country 1000)[i]? = some o →
        (pyGet d.summary = vNone ∨ ∃ w, pyGet d.summary = vStr w) →
        (o.has_summary = true ↔ ∃ w, pyGet d.summary = vStr w ∧ pyStrip w ≠ ""))
    ∧ (∀ (dl : DataLoader) (country : String) (i : Nat) (r : Row) (o : DropdownOption),
        pyLower country = "india" →
        ((dl.load_india_data).2.take 100)[i]? = some r →
        ((dl.get_dropdown_options country).2)[i]? = some o →
        (r.summary = vNone ∨ ∃ w, r.summary = vStr w) →
        (o.has_summary = true ↔ ∃ w, r.summary = vStr w ∧ pyStrip w ≠ ""))
    ∧ (∀ (dl : DataLoader) (country : String) (i : Nat) (r : Row) (o : DropdownOption),
        pyLower country = "usa" →
        ((dl.load_usa_data).2.take 100)[i]? = some r →
        ((dl.get_dropdown_options country).2)[i]? = some o →
        (r.summary = vNone ∨ ∃ w, r.summary = vStr w) →
        (o.has_summary = true ↔ ∃ w, r.summary = vStr w ∧ pyStrip w ≠ "")) := by
  refine ⟨?_, ?_, ?_, ?_⟩
  · intro st country h
    have hle : ((st.coll (mongoCollName country)).filter statsHasSummaryFilter).length
        ≤ (st.coll (mongoCollName country)).length := List.length_filter_le _ _
    refine ⟨{ total_notifications := (st.coll (mongoCollName country)).length,
              with_summaries :=
                ((st.coll (mongoCollName country)).filter statsHasSummaryFilter).length,
              without_summaries :=
                (st.coll (mongoCollName country)).length
                  - ((st.coll (mongoCollName country)).filter statsHasSummaryFilter).length },
            ?_, rfl, ?_, ?_⟩
    · unfold MongoState.get_collection_stats
      rw [if_pos h]
    · dsimp only
      rw [List.countP_eq_length_filter]
      congr 1
      apply List.filter_congr
      intro d hd
      cases hs : d.summary <;>
        simp [statsHasSummaryFilter, specStatsWithSummary, pyGet, hs]
    · exact Nat.add_sub_cancel' hle
  · intro st country i d o h hd ho hres
    have hgo : st.get_dropdown_options country 1000
        = ((st.coll (mongoCollName country)).take 1000).map docToOption := by
      unfold MongoState.get_dropdown_options
      rw [if_pos h, if_neg (by decide : ¬ (1000 = 0))]
    rw [hgo, List.getElem?_map, hd, Option.map_some'] at ho
    have ho2 : o = docToOption d := (Option.some.inj ho).symm
    subst ho2
    rcases hres with hn | ⟨w, hw⟩
    · simp [docToOption, hn, pyTruthy]
    · rw [docToOption]
      simp only [hw]
      by_cases ht : pyStrip w = ""
      · simp [pyTruthy, pyStr, ht]
      · have hne : w ≠ "" := by
          intro he; subst he; exact ht (by decide)
        simp [pyTruthy, pyStr, ht, hne]
  · intro dl country i r o hc hr ho hres
    have hgo : (dl.get_dropdown_options country).2
        = ((dl.load_india_data).2.take 100).map rowToOption := by
      unfold DataLoader.get_dropdown_options
      rw [hc, if_pos rfl]
    rw [hgo, List.getElem?_map, hr, Option.map_some'] at ho
    have ho2 : o = rowToOption r := (Option.some.inj ho).symm
    subst ho2
    rcases hres with hn | ⟨w, hw⟩
    · simp [rowToOption, hn]
    · rw [rowToOption]
      simp only [hw]
      by_cases ht : pyStrip w = "" <;> simp [pyStr, ht]
  · intro dl country i r o hc hr ho hres
    have hgo : (dl.get_dropdown_options country).2
        = ((dl.load_usa_data).2.take 100).map rowToOption := by
      unfold DataLoader.get_dropdown_options
      rw [hc, if_neg (by decide : ¬ (("usa" : String) = "india")), if_pos rfl]
    rw [hgo, List.getElem?_map, hr, Option.map_some'] at ho
    have ho2 : o = rowToOption r := (Option.some.inj ho).symm
    subst ho2
    rcases hres with hn | ⟨w, hw⟩
    · simp [rowToOption, hn]
    · rw [rowToOption]
      simp only [hw]
      by_cases ht : pyStrip w = "" <;> simp [pyStr, ht]

/-- C2, witness: the amended theorem applied to the concrete
whitespace-only-summary states of both backends. -/
theorem c2_amended_witness :
    (∃ stt, MongoState.get_collection_stats c2st "India" = some stt
        ∧ stt.total_notifications = (c2st.coll (mongoCollName "India")).length
        ∧ stt.with_summaries = (c2st.coll (mongoCollName "India")).countP specStatsWithSummary
        ∧ stt.with_summaries + stt.without_summaries = stt.total_notifications)
      ∧ ((docToOption c2doc).has_summary = true
          ↔ ∃ w, pyGet c2doc.summary = vStr w ∧ pyStrip w ≠ "")
      ∧ ((rowToOption c2row).has_summary = true
          ↔ ∃ w, c2row.summary = vStr w ∧ pyStrip w ≠ "")
      ∧ ((rowToOption c2row).has_summary = true
            ↔ ∃ w, c2row.summary = vStr w ∧ pyStrip w ≠ "") :=
  ⟨c2_amended.1 c2st "India" rfl,
   c2_amended.2.1 c2st "India" 0 c2doc (docToOption c2doc) rfl (by decide) rfl
     (Or.inr ⟨" ", rfl⟩),
   c2_amended.2.2.1 c2dl "India" 0 c2row (rowToOption c2row) rfl (by decide) rfl
     (Or.inr ⟨" ", rfl⟩),
   c2_amended.2.2.2 c2dl "USA" 0 c2row (rowToOption c2row) rfl (by decide) rfl
     (Or.inr ⟨" ", rfl⟩)⟩

/-! ## Claim C8 -/

/-- A record whose id is stored as the number 5 (not the string "5"),
in a connected document store. -/
def c8doc : MDoc :=
  { id := vInt 5, date := vStr "d", title := vStr "t",
    url := vStr "u", text := vStr "x" }

def c8st : MongoState := { connected := true, india := [c8doc] }

/-- A file-backend state whose India partition stores the same numeric
id 5, for the contrasting witness. -/
def c8dl : DataLoader :=
  { indiaSrc := [{ index := vInt 0, id := vInt 5, date := vStr "d",
                   title := vStr "t", url := vStr "u", text := vStr "x" }],
    usaSrc := [{ index := vInt 3, date := vStr "d", title := vStr "t",
                 url := vStr "u", text := vStr "x" }] }

/-- C8, counterexample.  The document backend's `find_one({"id": ...})`
performs a raw exact match with no normalization: a record stored with
the numeric id 5 is not found when queried by its normalized string
form "5" (the two have the same string form, as the first conjunct
records), so the lookup does not "succeed regardless of whether the
stored id or the queried id is represented as a number or as a string". -/
theorem c8_counterexample :
    pyStr (vInt 5) = pyStr (vStr "5")
      ∧ MongoState.get_notification_by_id c8st "India" (vStr "5") = none := by
  decide

/-- C8, amended.  The file backend really is representation-insensitive:
it compares the string forms of the stored and queried ids, returns the
first record whose normalized id matches (its returned id being the
normalized query), and absent when none matches.  The document backend
instead matches the raw stored value exactly: it returns a record iff
some stored document's id equals the queried value as-is, and absent
otherwise — so a numeric stored id is not found via its string form
there. -/
theorem c8_amended :
    (∀ (dl : DataLoader) (country : String) (nid : PValue),
        pyLower country = "india" →
        ((∃ r ∈ (dl.load_india_data).2, pyStr r.id = pyStr nid) →
            ∃ n, (dl.get_notification_by_id country nid).2 = some n ∧ n.id = pyStr nid)
          ∧ ((∀ r ∈ (dl.load_india_data).2, pyStr r.id ≠ pyStr nid) →
              (dl.get_notification_by_id country nid).2 = none))
    ∧ (∀ (dl : DataLoader) (country : String) (nid : PValue),
        pyLower country = "usa" →
        ((∃ r ∈ (dl.load_usa_data).2, pyStr r.id = pyStr nid) →
            ∃ n, (dl.get_notification_by_id country nid).2 = some n ∧ n.id = pyStr nid)
          ∧ ((∀ r ∈ (dl.load_usa_data).2, pyStr r.id ≠ pyStr nid) →
              (dl.get_notification_by_id country nid).2 = none))
    ∧ (∀ (st : MongoState) (country : String) (nid : PValue),
        st.connected = true →
        ((∃ d ∈ st.coll (mongoCollName country), d.id = nid) →
            ∃ n, st.get_notification_by_id country nid = some n ∧ n.id = pyStr nid)
          ∧ ((∀ d ∈ st.coll (mongoCollName country), d.id ≠ nid) →
              st.get_notification_by_id country nid = none)) := by
  have key : ∀ (data : List Row) (nid : PValue),
      ((∃ r ∈ data, pyStr r.id = pyStr nid) →
          ∃ n, (lookupRow (astypeStrId data) nid).map rowToNotification = some n
            ∧ n.id = pyStr nid)
        ∧ ((∀ r ∈ data, pyStr r.id ≠ pyStr nid) →
            (lookupRow (astypeStrId data) nid).map rowToNotification = none) := by
    intro data nid
    constructor
    · rintro ⟨r, hr, hid⟩
      have hmem : (⟨r.index, vStr (pyStr r.id), r.date, r.title, r.url, r.text,
          r.summary⟩ : Row) ∈ astypeStrId data := by
        unfold astypeStrId
        exact List.mem_map_of_mem _ hr
      have hpred : pdEq (vStr (pyStr r.id)) (vStr (pyStr nid)) = true :=
        pdEq_true.mpr ⟨by rw [hid], by simp⟩
      have hsome : (lookupRow (astypeStrId data) nid).isSome := by
        unfold lookupRow
        exact List.find?_isSome.mpr ⟨_, hmem, hpred⟩
      obtain ⟨r0, hr0⟩ := Option.isSome_iff_exists.mp hsome
      have hr0f : (astypeStrId data).find? (fun r => pdEq r.id (vStr (pyStr nid)))
          = some r0 := hr0
      have hp0 := List.find?_some hr0f
      have hid0 : r0.id = vStr (pyStr nid) := (pdEq_true.mp (by simpa using hp0)).1
      refine ⟨rowToNotification r0, by rw [hr0]; rfl, ?_⟩
      show pyStr r0.id = pyStr nid
      rw [hid0]
      rfl
    · intro hall
      have hnone : lookupRow (astypeStrId data) nid = none := by
        unfold lookupRow
        rw [List.find?_eq_none]
        intro x hx
        unfold astypeStrId at hx
        obtain ⟨r, hr, hxr⟩ := List.mem_map.mp hx
        subst hxr
        intro hco
        have := (pdEq_true.mp hco).1
        exact hall r hr (by simpa using this)
      rw [hnone]
      rfl
  refine ⟨?_, ?_, ?_⟩
  · intro dl country nid hc
    have hgo : (dl.get_notification_by_id country nid).2
        = (lookupRow (astypeStrId (dl.load_india_data).2) nid).map rowToNotification := by
      unfold DataLoader.get_notification_by_id
      rw [hc, if_pos rfl]
    rw [hgo]
    exact key (dl.load_india_data).2 nid
  · intro dl country nid hc
    have hgo : (dl.get_notification_by_id country nid).2
        = (lookupRow (astypeStrId (dl.load_usa_data).2) nid).map rowToNotification := by
      unfold DataLoader.get_notification_by_id
      rw [hc, if_neg (by decide : ¬ (("usa" : String) = "india")), if_pos rfl]
    rw [hgo]
    exact key (dl.load_usa_data).2 nid
  · intro st country nid h
    constructor
    · rintro ⟨d, hd, hid⟩
      have hsome : ((st.coll (mongoCollName country)).find?
          (fun x => decide (x.id = nid))).isSome :=
        List.find?_isSome.mpr ⟨d, hd, by simpa using hid⟩
      obtain ⟨d0, hd0⟩ := Option.isSome_iff_exists.mp hsome
      have hid0 : d0.id = nid := by simpa using List.find?_some hd0
      refine ⟨docToNotification d0, ?_, ?_⟩
      · unfold MongoState.get_notification_by_id
        rw [if_pos h, hd0]
      · show pyStr d0.id = pyStr nid
        rw [hid0]
    · intro hall
      have hnone : (st.coll (mongoCollName country)).find?
          (fun x => decide (x.id = nid)) = none := by
        rw [List.find?_eq_none]
        intro x hx
        simpa using hall x hx
      unfold MongoState.get_notification_by_id
      rw [if_pos h, hnone]

/-- C8, witness: the file backend finds the numerically-stored id 5 via
its string form "5" (and the USA id synthesized from index 3 via "3"),
and returns absent for a missing id; the document backend finds an
exact raw match and returns absent when the raw value differs. -/
theorem c8_witness :
    (∃ n, (c8dl.get_notification_by_id "India" (vStr "5")).2 = some n
        ∧ n.id = pyStr (vStr "5"))
      ∧ (c8dl.get_notification_by_id "India" (vStr "7")).2 = none
      ∧ (∃ n, (c8dl.get_notification_by_id "USA" (vInt 3)).2 = some n
          ∧ n.id = pyStr (vInt 3))
      ∧ (∃ n, MongoState.get_notification_by_id c8st "India" (vInt 5) = some n
          ∧ n.id = pyStr (vInt 5))
      ∧ MongoState.get_notification_by_id c8st "India" (vStr "5") = none :=
  ⟨(c8_amended.1 c8dl "India" (vStr "5") (by decide)).1 (by decide),
   (c8_amended.1 c8dl "India" (vStr "7") (by decide)).2 (by decide),
   (c8_amended.2.1 c8dl "USA" (vInt 3) (by decide)).1 (by decide),
   (c8_amended.2.2 c8st "India" (vInt 5) rfl).1 ⟨c8doc, by decide, rfl⟩,
   (c8_amended.2.2 c8st "India" (vStr "5") rfl).2 (by decide)⟩

/-! ## Claim C5 -/

lemma pdEq_vStr (x y : String) : pdEq (vStr x) (vStr y) = decide (x = y) := by
  simp [pdEq]

/-- After saving, looking the id up again finds a row carrying the new
summary: the first normalized-string match of the updated row list is an
updated row, provided the normalized ids are pairwise distinct (the
spec's uniqueness invariant) and some row raw-matches the saved id. -/
lemma roundtrip_rows (data : List Row) (nid : PValue) (s : String)
    (hnd : (data.map fun r => pyStr r.id).Nodup)
    (hex : ∃ r ∈ data, pdEq r.id nid = true) :
    ∃ row, lookupRow (astypeStrId (data.map (updRow nid s))) nid = some row
      ∧ row.summary = vStr s := by
  induction data with
  | nil => simp at hex
  | cons a rest ih =>
      simp only [List.map_cons, List.nodup_cons] at hnd
      by_cases hmatch : pyStr a.id = pyStr nid
      · have haraw : pdEq a.id nid = true := by
          rcases hex with ⟨r, hr, hraw⟩
          rcases List.mem_cons.mp hr with rfl | hrrest
          · exact hraw
          · exfalso
            have hreq : r.id = nid := (pdEq_true.mp hraw).1
            refine hnd.1 (List.mem_map.mpr ⟨r, hrrest, ?_⟩)
            rw [hreq, hmatch]
        have hfind : lookupRow (astypeStrId ((a :: rest).map (updRow nid s))) nid
            = some { updRow nid s a with id := vStr (pyStr (updRow nid s a).id) } := by
          unfold lookupRow astypeStrId
          rw [List.map_cons, List.map_cons]
          apply List.find?_cons_of_pos
          show pdEq (vStr (pyStr (updRow nid s a).id)) (vStr (pyStr nid)) = true
          rw [updRow_id, pdEq_vStr]
          exact decide_eq_true hmatch
        refine ⟨_, hfind, ?_⟩
        show (updRow nid s a).summary = vStr s
        exact updRow_summary_of_match nid s a haraw
      · have hexr : ∃ r ∈ rest, pdEq r.id nid = true := by
          rcases hex with ⟨r, hr, hraw⟩
          rcases List.mem_cons.mp hr with rfl | hrrest
          · exact absurd (by rw [(pdEq_true.mp hraw).1]) hmatch
          · exact ⟨r, hrrest, hraw⟩
        obtain ⟨row, hrow, hsum⟩ := ih hnd.2 hexr
        refine ⟨row, ?_, hsum⟩
        unfold lookupRow astypeStrId at hrow ⊢
        rw [List.map_cons, List.map_cons, List.find?_cons_of_neg]
        · exact hrow
        · show ¬ (pdEq (vStr (pyStr (updRow nid s a).id)) (vStr (pyStr nid)) = true)
          rw [updRow_id, pdEq_vStr]
          simp [hmatch]

/-- C5.  Round trip: when a record with the saved id exists — for the
document backend the first raw `find_one` match, for the file backend a
raw pandas match under the spec's invariant that normalized ids are
unique in the partition — saving a summary and immediately fetching the
same id returns a record carrying exactly the saved text. -/
theorem c5_round_trip :
    (∀ (st : MongoState) (country : String) (nid : PValue) (s : String)
        (now : Nat) (d : MDoc),
        st.connected = true →
        (st.coll (mongoCollName country)).find? (fun x => decide (x.id = nid)) = some d →
        ∃ n, ((st.save_summary country nid s now).1).get_notification_by_id country nid
              = some n
          ∧ n.summary = some (vStr s))
    ∧ (∀ (dl : DataLoader) (country : String) (nid : PValue) (s : String),
        pyLower country = "india" →
        ((dl.load_india_data).2.map fun r => pyStr r.id).Nodup →
        (∃ r ∈ (dl.load_india_data).2, pdEq r.id nid = true) →
        ∃ n, (((dl.save_summary country nid s).1).get_notification_by_id country nid).2
              = some n
          ∧ n.summary = some (vStr s))
    ∧ (∀ (dl : DataLoader) (country : String) (nid : PValue) (s : String),
        pyLower country = "usa" →
        ((dl.load_usa_data).2.map fun r => pyStr r.id).Nodup →
        (∃ r ∈ (dl.load_usa_data).2, pdEq r.id nid = true) →
        ∃ n, (((dl.save_summary country nid s).1).get_notification_by_id country nid).2
              = some n
          ∧ n.summary = some (vStr s)) := by
  refine ⟨?_, ?_, ?_⟩
  · intro st country nid s now d h hf
    have hsv : (st.save_summary country nid s now).1
        = st.setColl (mongoCollName country)
            (mongoUpdateDocs (st.coll (mongoCollName country)) nid s now).1 := by
      unfold MongoState.save_summary
      rw [if_pos h]
    have hknown : mongoCollName country = "india_notifications"
        ∨ mongoCollName country = "usa_notifications" := by
      by_contra hk
      push_neg at hk
      rw [coll_of_unknown st _ hk.1 hk.2] at hf
      simp at hf
    have hcoll : ((st.save_summary country nid s now).1).coll (mongoCollName country)
        = (mongoUpdateDocs (st.coll (mongoCollName country)) nid s now).1 := by
      rw [hsv]
      exact coll_setColl_self st _ _ hknown
    have hconn : ((st.save_summary country nid s now).1).connected = true := by
      rw [hsv, setColl_connected, h]
    have hfind := mongoUpdateDocs_fst_of_find (st.coll (mongoCollName country))
      nid s now d hf
    refine ⟨docToNotification { d with summary := some (vStr s), updated_at := some now },
      ?_, ?_⟩
    · unfold MongoState.get_notification_by_id
      rw [if_pos hconn, hcoll, hfind]
    · show (if pyGet (some (vStr s)) = vNone then none else some (pyGet (some (vStr s))))
          = some (vStr s)
      rw [if_neg (by simp [pyGet])]
      rfl
  · intro dl country nid s hc hnd hex
    have hsv : (dl.save_summary country nid s).1
        = { (dl.load_india_data).1 with
            indiaData := some ((dl.load_india_data).2.map (updRow nid s)),
            indiaFile := some ((dl.load_india_data).2.map (updRow nid s)) } := by
      unfold DataLoader.save_summary
      rw [hc, if_pos rfl]
    obtain ⟨row, hrow, hsum⟩ := roundtrip_rows (dl.load_india_data).2 nid s hnd hex
    refine ⟨rowToNotification row, ?_, ?_⟩
    · have hload : (((dl.save_summary country nid s).1).load_india_data).2
          = (dl.load_india_data).2.map (updRow nid s) := by
        rw [hsv]
        rfl
      have hget : (((dl.save_summary country nid s).1).get_notification_by_id country nid).2
          = (lookupRow (astypeStrId ((((dl.save_summary country nid s).1).load_india_data).2))
              nid).map rowToNotification := by
        unfold DataLoader.get_notification_by_id
        rw [hc, if_pos rfl]
      rw [hget, hload, hrow]
      rfl
    · show (if row.summary = vNone then none else some row.summary) = some (vStr s)
      rw [hsum, if_neg (by simp)]
  · intro dl country nid s hc hnd hex
    have hsv : (dl.save_summary country nid s).1
        = { (dl.load_usa_data).1 with
            usaData := some ((dl.load_usa_data).2.map (updRow nid s)),
            usaFile := some ((dl.load_usa_data).2.map (updRow nid s)) } := by
      unfold DataLoader.save_summary
      rw [hc, if_neg (by decide : ¬ (("usa" : String) = "india")), if_pos rfl]
    obtain ⟨row, hrow, hsum⟩ := roundtrip_rows (dl.load_usa_data).2 nid s hnd hex
    refine ⟨rowToNotification row, ?_, ?_⟩
    · have hload : (((dl.save_summary country nid s).1).load_usa_data).2
          = (dl.load_usa_data).2.map (updRow nid s) := by
        rw [hsv]
        rfl
      have hget : (((dl.save_summary country nid s).1).get_notification_by_id country nid).2
          = (lookupRow (astypeStrId ((((dl.save_summary country nid s).1).load_usa_data).2))
              nid).map rowToNotification := by
        unfold DataLoader.get_notification_by_id
        rw [hc, if_neg (by decide : ¬ (("usa" : String) = "india")), if_pos rfl]
      rw [hget, hload, hrow]
      rfl
    · show (if row.summary = vNone then none else some row.summary) = some (vStr s)
      rw [hsum, if_neg (by simp)]

/-- A connected document store with one USA record with id "9". -/
def c5doc : MDoc :=
  { id := vStr "9", date := vStr "d", title := vStr "t",
    url := vStr "u", text := vStr "x" }

def c5st : MongoState := { connected := true, usa := [c5doc] }

/-- C5, witness: concrete round trips through both backends (document
store; file backend for both the India and the USA partition). -/
theorem c5_witness :
    (∃ n, ((c5st.save_summary "USA" (vStr "9") "S" 3).1).get_notification_by_id
            "USA" (vStr "9") = some n
        ∧ n.summary = some (vStr "S"))
      ∧ (∃ n, (((c6dl.save_summary "India" (vStr "a") "S2").1).get_notification_by_id
              "India" (vStr "a")).2 = some n
          ∧ n.summary = some (vStr "S2"))
      ∧ (∃ n, (((c6dl.save_summary "usa" (vStr "0") "S3").1).get_notification_by_id
              "usa" (vStr "0")).2 = some n
          ∧ n.summary = some (vStr "S3")) :=
  ⟨c5_round_trip.1 c5st "USA" (vStr "9") "S" 3 c5doc rfl (by decide),
   c5_round_trip.2.1 c6dl "India" (vStr "a") "S2" (by decide) (by decide) (by decide),
   c5_round_trip.2.2 c6dl "usa" (vStr "0") "S3" (by decide) (by decide) (by decide)⟩

/-! ## Claim C9 -/

/-- The non-summary fields of a row (index, id, date, title, url,
text), used to state the frame property. -/
def rowCore (r : Row) : PValue × PValue × PValue × PValue × PValue × PValue :=
  (r.index, r.id, r.date, r.title, r.url, r.text)

lemma updRow_core (nid : PValue) (s : String) (r : Row) :
    rowCore (updRow nid s r) = rowCore r := by
  unfold updRow
  split <;> rfl

/-- C9.  Frame property of the file backend's `save_summary`: the row
list it installs as the new cache and writes back as the whole
partition file has the same length as the loaded rows, agrees with them
positionally on every non-summary field (hence preserves row count and
row order), and leaves the summary of every row whose id does not
match the saved id unchanged. -/
theorem c9_frame :
    (∀ (dl : DataLoader) (country : String) (nid : PValue) (s : String),
        pyLower country = "india" →
        ∃ data2,
          ((dl.save_summary country nid s).1).indiaData = some data2
            ∧ ((dl.save_summary country nid s).1).indiaFile = some data2
            ∧ data2.length = (dl.load_india_data).2.length
            ∧ (∀ i : Nat, (data2[i]?).map rowCore
                = (((dl.load_india_data).2)[i]?).map rowCore)
            ∧ (∀ (i : Nat) (r r2 : Row), ((dl.load_india_data).2)[i]? = some r →
                data2[i]? = some r2 → pdEq r.id nid = false → r2.summary = r.summary))
    ∧ (∀ (dl : DataLoader) (country : String) (nid : PValue) (s : String),
        pyLower country = "usa" →
        ∃ data2,
          ((dl.save_summary country nid s).1).usaData = some data2
            ∧ ((dl.save_summary country nid s).1).usaFile = some data2
            ∧ data2.length = (dl.load_usa_data).2.length
            ∧ (∀ i : Nat, (data2[i]?).map rowCore
                = (((dl.load_usa_data).2)[i]?).map rowCore)
            ∧ (∀ (i : Nat) (r r2 : Row), ((dl.load_usa_data).2)[i]? = some r →
                data2[i]? = some r2 → pdEq r.id nid = false → r2.summary = r.summary)) := by
  have key : ∀ (data : List Row) (nid : PValue) (s : String),
      (data.map (updRow nid s)).length = data.length
        ∧ (∀ i : Nat, ((data.map (updRow nid s))[i]?).map rowCore
            = (data[i]?).map rowCore)
        ∧ (∀ (i : Nat) (r r2 : Row), data[i]? = some r →
            (data.map (updRow nid s))[i]? = some r2 → pdEq r.id nid = false →
            r2.summary = r.summary) := by
    intro data nid s
    refine ⟨List.length_map _ _, ?_, ?_⟩
    · intro i
      rw [List.getElem?_map]
      cases h : data[i]? <;> simp [updRow_core]
    · intro i r r2 h1 h2 hne
      rw [List.getElem?_map, h1] at h2
      have hr2 : r2 = updRow nid s r := by simpa using h2.symm
      rw [hr2, updRow_of_no_match nid s r hne]
  constructor
  · intro dl country nid s hc
    have hsv : (dl.save_summary country nid s).1
        = { (dl.load_india_data).1 with
            indiaData := some ((dl.load_india_data).2.map (updRow nid s)),
            indiaFile := some ((dl.load_india_data).2.map (updRow nid s)) } := by
      unfold DataLoader.save_summary
      rw [hc, if_pos rfl]
    refine ⟨(dl.load_india_data).2.map (updRow nid s), ?_, ?_, (key _ nid s).1,
      (key _ nid s).2.1, (key _ nid s).2.2⟩
    · rw [hsv]
    · rw [hsv]
  · intro dl country nid s hc
    have hsv : (dl.save_summary country nid s).1
        = { (dl.load_usa_data).1 with
            usaData := some ((dl.load_usa_data).2.map (updRow nid s)),
            usaFile := some ((dl.load_usa_data).2.map (updRow nid s)) } := by
      unfold DataLoader.save_summary
      rw [hc, if_neg (by decide : ¬ (("usa" : String) = "india")), if_pos rfl]
    refine ⟨(dl.load_usa_data).2.map (updRow nid s), ?_, ?_, (key _ nid s).1,
      (key _ nid s).2.1, (key _ nid s).2.2⟩
    · rw [hsv]
    · rw [hsv]

/-- C9, witness: the frame property applied to the concrete two-row
India partition and one-row USA partition. -/
theorem c9_witness :
    (∃ data2,
        ((c6dl.save_summary "India" (vStr "a") "S").1).indiaData = some data2
          ∧ ((c6dl.save_summary "India" (vStr "a") "S").1).indiaFile = some data2
          ∧ data2.length = (c6dl.load_india_data).2.length
          ∧ (∀ i : Nat, (data2[i]?).map rowCore
              = (((c6dl.load_india_data).2)[i]?).map rowCore)
          ∧ (∀ (i : Nat) (r r2 : Row), ((c6dl.load_india_data).2)[i]? = some r →
              data2[i]? = some r2 → pdEq r.id (vStr "a") = false →
              r2.summary = r.summary))
      ∧ (∃ data2,
          ((c6dl.save_summary "USA" (vStr "0") "S").1).usaData = some data2
            ∧ ((c6dl.save_summary "USA" (vStr "0") "S").1).usaFile = some data2
            ∧ data2.length = (c6dl.load_usa_data).2.length
            ∧ (∀ i : Nat, (data2[i]?).map rowCore
                = (((c6dl.load_usa_data).2)[i]?).map rowCore)
            ∧ (∀ (i : Nat) (r r2 : Row), ((c6dl.load_usa_data).2)[i]? = some r →
                data2[i]? = some r2 → pdEq r.id (vStr "0") = false →
                r2.summary = r.summary)) :=
  ⟨c9_frame.1 c6dl "India" (vStr "a") "S" (by decide),
   c9_frame.2 c6dl "USA" (vStr "0") "S" (by decide)⟩
